import Mathlib

/-!
Verification of the embedding lookup & similarity subsystem of the
lego_tokenization repository (src/lib/embeddings.ts, src/lib/workerUtils.ts and
the web-worker source embedded/duplicated there).

Modelling conventions:
* JavaScript numbers are modelled as real numbers (`ℝ`).  Every value of `ℝ`
  is finite, so `Number.isFinite` is modelled as the constantly-true predicate;
  `NaN`/`undefined` contamination of the 2D projector is modelled explicitly
  with `Option ℝ` (a `none` coordinate is an ill-defined NaN coordinate).
* A JavaScript object used as a string-keyed map is modelled as an association
  list `List (String × List ℝ)` with unique keys; `Object.entries` iterates in
  insertion order, which the list order represents.  Property assignment
  `o[k] = v` updates an existing key in place (keeping its position) and
  appends a fresh key at the end (`tableInsert`).
* The asynchronous functions are modelled by their sequential semantics:
  the mutable module state (`embeddingsCache`) is passed and returned
  explicitly.  The `pendingEmbeddings` in-flight map only de-duplicates
  concurrent fetches and is always empty in sequential execution, so it is
  omitted.  `fetchWordEmbedding` never throws, so the catch-branch of
  `getWordEmbedding` is unreachable and not modelled.
* The JS `!vec1 || !vec2` null-guards have no counterpart: Lean lists are
  never null.  Note `![]` is `false` in JS, so these guards do not test
  emptiness and no emptiness test is modelled.
-/

/-- Type `WordEmbeddings` from embeddings.ts: a word → vector mapping, modelled as
an insertion-ordered association list. -/
abbrev WordEmbeddings := List (String × List ℝ)

/-- Object property read `table[word]` / `word in table` (first match; keys are
unique by construction). -/
def lookupTable : WordEmbeddings → String → Option (List ℝ)
  | [], _ => none
  | (k, v) :: rest, w => if w = k then some v else lookupTable rest w

/-- Last-occurrence lookup; used to reason about object spread, where a later
entry for the same key wins. -/
def lookupLast : WordEmbeddings → String → Option (List ℝ)
  | [], _ => none
  | (k, v) :: rest, w =>
    match lookupLast rest w with
    | some r => some r
    | none => if w = k then some v else none

/-- JS object assignment `table[k] = v`: overwrite in place if the key exists
(keeping its iteration position), otherwise append at the end.  (JS objects
cannot hold duplicate keys, so overwriting the first occurrence is the same as
overwriting the unique one.) -/
def tableInsert : WordEmbeddings → String → List ℝ → WordEmbeddings
  | [], k, v => [(k, v)]
  | (pk, pv) :: rest, k, v =>
    if pk = k then (k, v) :: rest else (pk, pv) :: tableInsert rest k v

/-- Object spread `{...s, ...a}`: start from `s` and assign every entry of `a`
in order. -/
def mergeTables (s a : WordEmbeddings) : WordEmbeddings :=
  a.foldl (fun acc p => tableInsert acc p.1 p.2) s
def getStaticWordEmbeddings : WordEmbeddings :=
  [ ("the", [0.0, 0.0, 0.0, 0.0, 0.0]),
    ("The", [0.0, 0.0, 0.0, 0.0, 0.1]),
    ("a", [0.1, 0.0, 0.0, 0.0, 0.0]),
    ("an", [0.1, 0.1, 0.0, 0.0, 0.0]),
    ("this", [0.2, 0.1, 0.0, 0.0, 0.0]),
    ("that", [0.2, -0.1, 0.0, 0.0, 0.0]),
    ("it", [0.1, 0.0, 0.1, 0.0, 0.0]),
    ("he", [0.3, 0.0, 0.0, 0.0, 0.0]),
    ("she", [0.3, 0.0, 0.0, 0.0, -0.1]),
    ("they", [0.3, 0.1, 0.0, 0.0, 0.0]),
    ("we", [0.3, 0.2, 0.0, 0.0, 0.0]),
    ("i", [0.3, -0.1, 0.0, 0.0, 0.0]),
    ("you", [0.3, -0.2, 0.0, 0.0, 0.0]),
    ("in", [0.1, 0.0, 0.1, 0.1, 0.0]),
    ("on", [0.1, 0.0, 0.1, -0.1, 0.0]),
    ("at", [0.1, 0.0, 0.2, 0.0, 0.0]),
    ("by", [0.1, 0.0, -0.1, 0.0, 0.0]),
    ("for", [0.1, 0.0, -0.2, 0.0, 0.0]),
    ("with", [0.1, 0.0, 0.0, 0.1, 0.0]),
    ("to", [0.1, 0.0, 0.0, -0.1, 0.0]),
    ("from", [0.1, 0.0, -0.1, -0.1, 0.0]),
    ("and", [0.0, 0.1, 0.0, 0.0, 0.0]),
    ("or", [0.0, -0.1, 0.0, 0.0, 0.0]),
    ("but", [0.0, -0.2, 0.0, 0.0, 0.0]),
    ("over", [0.1, 0.0, 0.2, 0.2, 0.0]),
    ("dog", [0.7, 0.3, 0.2, 0.5, 0.4]),
    ("cat", [0.6, 0.3, 0.2, 0.5, -0.3]),
    ("puppy", [0.7, 0.4, 0.3, 0.5, 0.4]),
    ("kitten", [0.6, 0.4, 0.3, 0.5, -0.3]),
    ("fox", [0.65, 0.3, 0.25, 0.45, 0.35]),
    ("wolf", [0.7, 0.25, 0.2, 0.4, 0.35]),
    ("bird", [0.5, 0.35, 0.25, 0.6, -0.2]),
    ("fish", [0.4, 0.35, 0.2, 0.55, -0.3]),
    ("lion", [0.75, 0.25, 0.3, 0.4, 0.45]),
    ("tiger", [0.75, 0.25, 0.3, 0.45, 0.4]),
    ("bear", [0.7, 0.3, 0.35, 0.45, 0.5]),
    ("elephant", [0.65, 0.2, 0.4, 0.35, 0.45]),
    ("mouse", [0.55, 0.4, 0.2, 0.5, -0.3]),
    ("horse", [0.65, 0.3, 0.2, 0.45, 0.4]),
    ("animal", [0.6, 0.3, 0.25, 0.5, 0.0]),
    ("pet", [0.6, 0.35, 0.25, 0.5, 0.1]),
    ("run", [0.2, 0.8, 0.5, 0.1, 0.6]),
    ("jump", [0.3, 0.7, 0.5, 0.1, 0.5]),
    ("walk", [0.1, 0.6, 0.4, 0.1, 0.4]),
    ("sprint", [0.2, 0.9, 0.6, 0.1, 0.7]),
    ("eat", [0.3, 0.6, 0.4, 0.2, 0.3]),
    ("drink", [0.3, 0.5, 0.4, 0.2, 0.2]),
    ("sleep", [0.1, 0.3, 0.2, 0.1, 0.1]),
    ("think", [0.2, 0.2, 0.3, 0.5, 0.4]),
    ("speak", [0.4, 0.4, 0.3, 0.3, 0.4]),
    ("talk", [0.4, 0.45, 0.3, 0.3, 0.4]),
    ("move", [0.2, 0.7, 0.4, 0.1, 0.3]),
    ("sit", [0.1, 0.3, 0.2, 0.1, 0.2]),
    ("stand", [0.1, 0.4, 0.2, 0.1, 0.3]),
    ("play", [0.3, 0.6, 0.5, 0.2, 0.5]),
    ("write", [0.35, 0.5, 0.3, 0.4, 0.3]),
    ("read", [0.3, 0.4, 0.3, 0.5, 0.3]),
    ("quick", [0.7, 0.3, 0.6, 0.4, 0.2]),
    ("fast", [0.8, 0.3, 0.6, 0.4, 0.2]),
    ("slow", [0.2, 0.7, 0.3, 0.6, 0.4]),
    ("lazy", [0.15, 0.8, 0.2, 0.7, 0.3]),
    ("active", [0.7, 0.2, 0.5, 0.3, 0.2]),
    ("red", [0.5, 0.3, 0.1, 0.7, 0.1]),
    ("blue", [0.4, 0.3, 0.1, 0.7, -0.1]),
    ("green", [0.45, 0.3, 0.1, 0.7, 0.0]),
    ("yellow", [0.5, 0.3, 0.1, 0.7, 0.2]),
    ("black", [0.3, 0.3, 0.1, 0.7, -0.2]),
    ("white", [0.3, 0.3, 0.1, 0.7, 0.2]),
    ("brown", [0.4, 0.5, 0.3, 0.6, 0.5]),
    ("big", [0.6, 0.2, 0.3, 0.5, 0.4]),
    ("small", [0.3, 0.2, 0.3, 0.5, -0.4]),
    ("large", [0.65, 0.2, 0.3, 0.5, 0.45]),
    ("tiny", [0.25, 0.2, 0.3, 0.5, -0.45]),
    ("tall", [0.6, 0.2, 0.3, 0.6, 0.4]),
    ("short", [0.3, 0.2, 0.3, 0.6, -0.4]),
    ("good", [0.5, 0.4, 0.3, 0.2, 0.5]),
    ("bad", [0.5, 0.4, 0.3, 0.2, -0.5]),
    ("happy", [0.4, 0.5, 0.4, 0.2, 0.6]),
    ("sad", [0.4, 0.5, 0.4, 0.2, -0.6]),
    ("hot", [0.4, 0.3, 0.7, 0.2, 0.4]),
    ("cold", [0.4, 0.3, 0.7, 0.2, -0.4]),
    ("house", [0.5, 0.2, 0.2, 0.6, 0.1]),
    ("home", [0.5, 0.25, 0.2, 0.6, 0.15]),
    ("car", [0.4, 0.5, 0.1, 0.3, 0.1]),
    ("truck", [0.45, 0.5, 0.15, 0.3, 0.15]),
    ("bike", [0.35, 0.5, 0.1, 0.3, 0.05]),
    ("tree", [0.3, 0.1, 0.3, 0.6, 0.2]),
    ("flower", [0.3, 0.15, 0.25, 0.55, 0.15]),
    ("book", [0.2, 0.2, 0.1, 0.6, 0.3]),
    ("table", [0.3, 0.2, 0.15, 0.5, 0.1]),
    ("chair", [0.3, 0.2, 0.15, 0.45, 0.1]),
    ("door", [0.25, 0.3, 0.15, 0.5, 0.05]),
    ("window", [0.25, 0.3, 0.15, 0.55, 0.05]),
    ("computer", [0.2, 0.3, 0.1, 0.4, 0.4]),
    ("phone", [0.2, 0.3, 0.1, 0.4, 0.35]),
    ("food", [0.4, 0.3, 0.4, 0.3, 0.2]),
    ("water", [0.2, 0.3, 0.5, 0.3, 0.0]),
    ("sun", [0.5, 0.2, 0.7, 0.3, 0.4]),
    ("moon", [0.5, 0.2, 0.7, 0.3, -0.4]),
    ("star", [0.5, 0.2, 0.6, 0.35, 0.3]),
    ("sky", [0.3, 0.2, 0.5, 0.4, 0.3]),
    ("cloud", [0.3, 0.2, 0.5, 0.4, 0.1]),
    ("rain", [0.2, 0.3, 0.6, 0.3, -0.1]),
    ("snow", [0.2, 0.3, 0.6, 0.3, -0.3]),
    ("wind", [0.3, 0.4, 0.5, 0.2, 0.1]),
    ("forest", [0.3, 0.1, 0.3, 0.5, 0.2]),
    ("mountain", [0.4, 0.1, 0.2, 0.6, 0.3]),
    ("river", [0.2, 0.3, 0.5, 0.4, 0.1]),
    ("lake", [0.2, 0.25, 0.5, 0.4, 0.0]),
    ("ocean", [0.2, 0.2, 0.5, 0.4, 0.2]),
    ("beach", [0.3, 0.2, 0.4, 0.4, 0.1]),
    ("grass", [0.3, 0.1, 0.3, 0.5, 0.1]),
    ("earth", [0.3, 0.15, 0.3, 0.5, 0.2]),
    ("time", [0.3, 0.3, 0.1, 0.3, 0.2]),
    ("day", [0.3, 0.3, 0.2, 0.3, 0.3]),
    ("night", [0.3, 0.3, 0.2, 0.3, -0.3]),
    ("year", [0.3, 0.3, 0.1, 0.3, 0.15]),
    ("month", [0.3, 0.3, 0.1, 0.3, 0.1]),
    ("week", [0.3, 0.3, 0.1, 0.3, 0.05]),
    ("one", [0.15, 0.15, 0.15, 0.15, 0.1]),
    ("two", [0.15, 0.15, 0.15, 0.15, 0.2]),
    ("three", [0.15, 0.15, 0.15, 0.15, 0.3]),
    ("four", [0.15, 0.15, 0.15, 0.15, 0.4]),
    ("five", [0.15, 0.15, 0.15, 0.15, 0.5]),
    ("ten", [0.15, 0.15, 0.15, 0.15, 0.6]),
    ("first", [0.2, 0.15, 0.15, 0.15, 0.1]),
    ("last", [0.2, 0.15, 0.15, 0.15, -0.1]),
    ("token", [0.1, 0.1, 0.1, 0.3, 0.9]),
    ("tokenization", [0.15, 0.1, 0.1, 0.3, 0.85]),
    ("text", [0.2, 0.1, 0.1, 0.2, 0.8]),
    ("word", [0.1, 0.1, 0.1, 0.2, 0.8]),
    ("sentence", [0.2, 0.1, 0.1, 0.25, 0.75]),
    ("language", [0.2, 0.2, 0.1, 0.3, 0.8]),
    ("model", [0.25, 0.2, 0.1, 0.4, 0.7]),
    ("vector", [0.2, 0.2, 0.1, 0.4, 0.6]),
    ("embedding", [0.2, 0.2, 0.1, 0.35, 0.75]),
    ("lego", [0.3, 0.4, 0.2, 0.5, 0.6]),
    ("brick", [0.35, 0.3, 0.2, 0.4, 0.5]),
    ("block", [0.35, 0.3, 0.2, 0.4, 0.45]),
    ("build", [0.3, 0.5, 0.2, 0.4, 0.4]),
    ("machine", [0.25, 0.4, 0.2, 0.3, 0.5]),
    ("learning", [0.2, 0.3, 0.2, 0.3, 0.7]),
    ("artificial", [0.2, 0.3, 0.2, 0.25, 0.65]),
    ("intelligence", [0.2, 0.3, 0.2, 0.3, 0.75]),
    ("love", [0.4, 0.6, 0.3, 0.7, 0.8]),
    ("hate", [0.6, 0.4, 0.7, 0.3, -0.8]),
    ("fear", [0.3, 0.7, 0.2, 0.8, -0.6]),
    ("joy", [0.7, 0.3, 0.6, 0.4, 0.7]),
    ("peace", [0.3, 0.7, 0.2, 0.8, 0.6]),
    ("hope", [0.5, 0.5, 0.4, 0.6, 0.7]),
    ("dream", [0.4, 0.6, 0.3, 0.7, 0.6]),
    ("believe", [0.5, 0.5, 0.4, 0.6, 0.5]),
    ("family", [0.5, 0.5, 0.4, 0.6, 0.7]),
    ("mother", [0.5, 0.5, 0.4, 0.6, 0.8]),
    ("father", [0.5, 0.5, 0.4, 0.6, 0.8]),
    ("sister", [0.5, 0.5, 0.4, 0.6, 0.7]),
    ("brother", [0.5, 0.5, 0.4, 0.6, 0.7]),
    ("friend", [0.5, 0.5, 0.4, 0.6, 0.6]),
    ("neighbor", [0.5, 0.5, 0.4, 0.6, 0.5]),
    ("community", [0.5, 0.5, 0.4, 0.6, 0.4]),
    ("learn", [0.6, 0.4, 0.5, 0.5, 0.7]),
    ("teach", [0.6, 0.4, 0.5, 0.5, 0.7]),
    ("study", [0.6, 0.4, 0.5, 0.5, 0.6]),
    ("school", [0.5, 0.5, 0.4, 0.6, 0.6]),
    ("university", [0.5, 0.5, 0.4, 0.6, 0.7]),
    ("knowledge", [0.6, 0.4, 0.5, 0.5, 0.7]),
    ("wisdom", [0.6, 0.4, 0.5, 0.5, 0.8]),
    ("understanding", [0.6, 0.4, 0.5, 0.5, 0.7]),
    ("internet", [0.4, 0.6, 0.3, 0.7, 0.7]),
    ("software", [0.4, 0.6, 0.3, 0.7, 0.6]),
    ("hardware", [0.4, 0.6, 0.3, 0.7, 0.5]),
    ("network", [0.4, 0.6, 0.3, 0.7, 0.5]),
    ("data", [0.4, 0.6, 0.3, 0.7, 0.4]),
    ("digital", [0.4, 0.6, 0.3, 0.7, 0.6]),
    ("virtual", [0.4, 0.6, 0.3, 0.7, 0.5]),
    ("work", [0.6, 0.4, 0.5, 0.5, 0.5]),
    ("business", [0.6, 0.4, 0.5, 0.5, 0.6]),
    ("company", [0.6, 0.4, 0.5, 0.5, 0.5]),
    ("market", [0.6, 0.4, 0.5, 0.5, 0.4]),
    ("product", [0.6, 0.4, 0.5, 0.5, 0.5]),
    ("service", [0.6, 0.4, 0.5, 0.5, 0.5]),
    ("customer", [0.6, 0.4, 0.5, 0.5, 0.4]),
    ("employee", [0.6, 0.4, 0.5, 0.5, 0.4]),
    ("health", [0.5, 0.5, 0.4, 0.6, 0.6]),
    ("medicine", [0.5, 0.5, 0.4, 0.6, 0.7]),
    ("doctor", [0.5, 0.5, 0.4, 0.6, 0.7]),
    ("patient", [0.5, 0.5, 0.4, 0.6, 0.6]),
    ("hospital", [0.5, 0.5, 0.4, 0.6, 0.6]),
    ("treatment", [0.5, 0.5, 0.4, 0.6, 0.7]),
    ("recovery", [0.5, 0.5, 0.4, 0.6, 0.6]),
    ("wellness", [0.5, 0.5, 0.4, 0.6, 0.6]),
    ("art", [0.4, 0.6, 0.3, 0.7, 0.6]),
    ("music", [0.4, 0.6, 0.3, 0.7, 0.7]),
    ("dance", [0.4, 0.6, 0.3, 0.7, 0.6]),
    ("paint", [0.4, 0.6, 0.3, 0.7, 0.5]),
    ("draw", [0.4, 0.6, 0.3, 0.7, 0.5]),
    ("create", [0.4, 0.6, 0.3, 0.7, 0.7]),
    ("design", [0.4, 0.6, 0.3, 0.7, 0.6]),
    ("sport", [0.6, 0.4, 0.5, 0.5, 0.5]),
    ("game", [0.6, 0.4, 0.5, 0.5, 0.5]),
    ("team", [0.6, 0.4, 0.5, 0.5, 0.5]),
    ("player", [0.6, 0.4, 0.5, 0.5, 0.5]),
    ("coach", [0.6, 0.4, 0.5, 0.5, 0.6]),
    ("win", [0.6, 0.4, 0.5, 0.5, 0.7]),
    ("lose", [0.6, 0.4, 0.5, 0.5, -0.7]),
    ("bread", [0.5, 0.5, 0.4, 0.6, 0.4]),
    ("meat", [0.5, 0.5, 0.4, 0.6, 0.4]),
    ("fruit", [0.5, 0.5, 0.4, 0.6, 0.5]),
    ("vegetable", [0.5, 0.5, 0.4, 0.6, 0.5]),
    ("coffee", [0.5, 0.5, 0.4, 0.6, 0.4]),
    ("tea", [0.5, 0.5, 0.4, 0.6, 0.4]),
    ("bus", [0.4, 0.6, 0.3, 0.7, 0.4]),
    ("train", [0.4, 0.6, 0.3, 0.7, 0.5]),
    ("plane", [0.4, 0.6, 0.3, 0.7, 0.6]),
    ("boat", [0.4, 0.6, 0.3, 0.7, 0.5]),
    ("drive", [0.4, 0.6, 0.3, 0.7, 0.5]),
    ("travel", [0.4, 0.6, 0.3, 0.7, 0.6]),
    ("today", [0.5, 0.5, 0.4, 0.6, 0.3]),
    ("tomorrow", [0.5, 0.5, 0.4, 0.6, 0.3]),
    ("yesterday", [0.5, 0.5, 0.4, 0.6, 0.3]),
    ("hello world", [0.25, 0.35, 0.15, 0.55, 0.6]),
    ("how are you", [0.26, 0.36, 0.16, 0.56, 0.61]),
    ("nice to meet you", [0.27, 0.37, 0.17, 0.57, 0.62]),
    ("thank you very much", [0.28, 0.38, 0.18, 0.58, 0.63]),
    ("good morning", [0.29, 0.39, 0.19, 0.59, 0.64]),
    ("good afternoon", [0.3, 0.4, 0.2, 0.6, 0.65]),
    ("good evening", [0.31, 0.41, 0.21, 0.61, 0.66]),
    ("see you later", [0.32, 0.42, 0.22, 0.62, 0.67]),
    ("have a nice day", [0.33, 0.43, 0.23, 0.63, 0.68]),
    ("what time is it", [0.34, 0.44, 0.24, 0.64, 0.69]),
    ("where are you from", [0.35, 0.45, 0.25, 0.65, 0.7]),
    ("my name is", [0.36, 0.46, 0.26, 0.66, 0.71]),
    ("i like to", [0.37, 0.47, 0.27, 0.67, 0.72]),
    ("can you help me", [0.38, 0.48, 0.28, 0.68, 0.73]),
    ("student", [0.4, 0.5, 0.3, 0.7, 0.6]),
    ("classroom", [0.41, 0.51, 0.31, 0.71, 0.61]),
    ("homework", [0.42, 0.52, 0.32, 0.72, 0.62]),
    ("exam", [0.43, 0.53, 0.33, 0.73, 0.63]),
    ("quiz", [0.44, 0.54, 0.34, 0.74, 0.64]),
    ("project", [0.45, 0.55, 0.35, 0.75, 0.65]),
    ("paper", [0.46, 0.56, 0.36, 0.76, 0.66]),
    ("professor", [0.47, 0.57, 0.37, 0.77, 0.67]),
    ("lecture", [0.48, 0.58, 0.38, 0.78, 0.68]),
    ("research", [0.49, 0.59, 0.39, 0.79, 0.69]),
    ("machine learning", [0.5, 0.6, 0.4, 0.5, 0.7]),
    ("deep learning", [0.51, 0.61, 0.41, 0.51, 0.71]),
    ("neural network", [0.52, 0.62, 0.42, 0.52, 0.72]),
    ("natural language processing", [0.53, 0.63, 0.43, 0.53, 0.73]),
    ("computer vision", [0.54, 0.64, 0.44, 0.54, 0.74]),
    ("reinforcement learning", [0.55, 0.65, 0.45, 0.55, 0.75]),
    ("artificial intelligence", [0.56, 0.66, 0.46, 0.56, 0.76]),
    ("data science", [0.57, 0.67, 0.47, 0.57, 0.77]),
    ("big data", [0.58, 0.68, 0.48, 0.58, 0.78]),
    ("cloud computing", [0.59, 0.69, 0.49, 0.59, 0.79]),
    ("go", [0.6, 0.3, 0.5, 0.4, 0.5]),
    ("come", [0.61, 0.31, 0.51, 0.41, 0.51]),
    ("see", [0.62, 0.32, 0.52, 0.42, 0.52]),
    ("look", [0.63, 0.33, 0.53, 0.43, 0.53]),
    ("find", [0.64, 0.34, 0.54, 0.44, 0.54]),
    ("make", [0.65, 0.35, 0.55, 0.45, 0.55]),
    ("take", [0.66, 0.36, 0.56, 0.46, 0.56]),
    ("give", [0.67, 0.37, 0.57, 0.47, 0.57]),
    ("job", [0.68, 0.38, 0.58, 0.48, 0.58]),
    ("call", [0.69, 0.39, 0.59, 0.49, 0.59]),
    ("try", [0.7, 0.4, 0.6, 0.5, 0.6]),
    ("ask", [0.71, 0.41, 0.61, 0.51, 0.61]),
    ("need", [0.72, 0.42, 0.62, 0.52, 0.62]),
    ("feel", [0.73, 0.43, 0.63, 0.53, 0.63]),
    ("become", [0.74, 0.44, 0.64, 0.54, 0.64]) ]

def fetchAdditionalEmbeddings : WordEmbeddings :=
  [ ("democracy", [0.4, 0.3, 0.2, 0.5, 0.7]),
    ("freedom", [0.45, 0.35, 0.25, 0.5, 0.75]),
    ("justice", [0.42, 0.32, 0.22, 0.52, 0.72]),
    ("education", [0.3, 0.4, 0.3, 0.6, 0.8]),
    ("wellness", [0.35, 0.45, 0.25, 0.55, 0.65]),
    ("science", [0.25, 0.35, 0.25, 0.65, 0.75]),
    ("technology", [0.2, 0.3, 0.2, 0.6, 0.8]),
    ("hello there", [0.3, 0.4, 0.2, 0.5, 0.6]),
    ("world map", [0.32, 0.42, 0.22, 0.52, 0.62]),
    ("thanks a lot", [0.4, 0.5, 0.3, 0.6, 0.7]),
    ("please help", [0.38, 0.48, 0.28, 0.58, 0.68]),
    ("welcome home", [0.36, 0.46, 0.26, 0.56, 0.66]),
    ("goodbye friend", [0.34, 0.44, 0.24, 0.54, 0.64]),
    ("code", [0.25, 0.3, 0.2, 0.55, 0.75]),
    ("program", [0.26, 0.31, 0.21, 0.56, 0.76]),
    ("function", [0.27, 0.32, 0.22, 0.57, 0.77]),
    ("variable", [0.28, 0.33, 0.23, 0.58, 0.78]),
    ("algorithm", [0.29, 0.34, 0.24, 0.59, 0.79]),
    ("python", [0.3, 0.35, 0.25, 0.6, 0.8]),
    ("javascript", [0.31, 0.36, 0.26, 0.61, 0.81]),
    ("america", [0.5, 0.4, 0.3, 0.6, 0.5]),
    ("china", [0.51, 0.41, 0.31, 0.61, 0.51]),
    ("india", [0.52, 0.42, 0.32, 0.62, 0.52]),
    ("japan", [0.53, 0.43, 0.33, 0.63, 0.53]),
    ("germany", [0.54, 0.44, 0.34, 0.64, 0.54]),
    ("france", [0.55, 0.45, 0.35, 0.65, 0.55]),
    ("brazil", [0.56, 0.46, 0.36, 0.66, 0.56]),
    ("apple", [0.6, 0.3, 0.4, 0.5, 0.3]),
    ("banana", [0.61, 0.31, 0.41, 0.51, 0.31]),
    ("orange", [0.62, 0.32, 0.42, 0.52, 0.32]),
    ("grape", [0.63, 0.33, 0.43, 0.53, 0.33]),
    ("strawberry", [0.64, 0.34, 0.44, 0.54, 0.34]),
    ("blueberry", [0.65, 0.35, 0.45, 0.55, 0.35]),
    ("pineapple", [0.66, 0.36, 0.46, 0.56, 0.36]),
    ("soccer", [0.7, 0.4, 0.3, 0.5, 0.6]),
    ("football", [0.71, 0.41, 0.31, 0.51, 0.61]),
    ("basketball", [0.72, 0.42, 0.32, 0.52, 0.62]),
    ("tennis", [0.73, 0.43, 0.33, 0.53, 0.63]),
    ("golf", [0.74, 0.44, 0.34, 0.54, 0.64]),
    ("swimming", [0.75, 0.45, 0.35, 0.55, 0.65]),
    ("running", [0.76, 0.46, 0.36, 0.56, 0.66]),
    ("shirt", [0.4, 0.5, 0.6, 0.3, 0.4]),
    ("pants", [0.41, 0.51, 0.61, 0.31, 0.41]),
    ("shoes", [0.42, 0.52, 0.62, 0.32, 0.42]),
    ("hat", [0.43, 0.53, 0.63, 0.33, 0.43]),
    ("socks", [0.44, 0.54, 0.64, 0.34, 0.44]),
    ("jacket", [0.45, 0.55, 0.65, 0.35, 0.45]),
    ("sweater", [0.46, 0.56, 0.66, 0.36, 0.46]),
    ("professor", [0.3, 0.6, 0.4, 0.5, 0.7]),
    ("physician", [0.31, 0.61, 0.41, 0.51, 0.71]),
    ("engineer", [0.32, 0.62, 0.42, 0.52, 0.72]),
    ("scientist", [0.33, 0.63, 0.43, 0.53, 0.73]),
    ("artist", [0.34, 0.64, 0.44, 0.54, 0.74]),
    ("writer", [0.35, 0.65, 0.45, 0.55, 0.75]),
    ("programmer", [0.36, 0.66, 0.46, 0.56, 0.76]),
    ("sunny", [0.5, 0.7, 0.5, 0.3, 0.4]),
    ("rainy", [0.51, 0.71, 0.51, 0.31, 0.41]),
    ("cloudy", [0.52, 0.72, 0.52, 0.32, 0.42]),
    ("snowy", [0.53, 0.73, 0.53, 0.33, 0.43]),
    ("windy", [0.54, 0.74, 0.54, 0.34, 0.44]),
    ("stormy", [0.55, 0.75, 0.55, 0.35, 0.45]),
    ("foggy", [0.56, 0.76, 0.56, 0.36, 0.46]),
    ("airplane", [0.7, 0.5, 0.3, 0.4, 0.5]),
    ("helicopter", [0.71, 0.51, 0.31, 0.41, 0.51]),
    ("motorcycle", [0.72, 0.52, 0.32, 0.42, 0.52]),
    ("subway", [0.73, 0.53, 0.33, 0.43, 0.53]),
    ("bicycle", [0.74, 0.54, 0.34, 0.44, 0.54]),
    ("scooter", [0.75, 0.55, 0.35, 0.45, 0.55]),
    ("skateboard", [0.76, 0.56, 0.36, 0.46, 0.56]) ]

/-- Cache state after `initializeEmbeddings` seeds it with the static table
(embeddings.ts line 345), before the supplemental merge. -/
def seededCache : WordEmbeddings := getStaticWordEmbeddings

/-- Model of `initializeEmbeddings` (embeddings.ts): a no-op when the cache is already
populated; otherwise seeds from the static table and merges the supplemental
table `{...embeddingsCache, ...additionalEmbeddings}` (modelling the success
path of the supplemental fetch; on failure the cache stays seeded). -/
def initializeEmbeddings : Option WordEmbeddings → Option WordEmbeddings
  | some c => some c
  | none => some (mergeTables getStaticWordEmbeddings fetchAdditionalEmbeddings)

/-- Removal of leading and trailing whitespace, as JS `String.prototype.trim`
(implemented over the character list so that the kernel can evaluate it). -/
def jsTrim (l : List Char) : List Char :=
  ((l.dropWhile Char.isWhitespace).reverse.dropWhile Char.isWhitespace).reverse

/-- The normalization `word.toLowerCase().trim()` used by `getWordEmbedding`
(ASCII case folding; JS full-Unicode folding agrees on this repository's
keys). -/
def normalizeWord (word : String) : String :=
  String.mk (jsTrim (word.data.map Char.toLower))

/-- The deterministic seed of `fetchWordEmbedding`: sum of the character codes
of the word, divided by 100. -/
noncomputable def synthSeed (word : String) : ℝ :=
  ((word.data.map fun char => (char.toNat : ℝ)).sum) / 100

/-- The synthesized vector of `fetchWordEmbedding` for a non-empty word. -/
noncomputable def synthVector (word : String) : List ℝ :=
  [Real.sin (synthSeed word) * 0.5,
   Real.cos (synthSeed word) * 0.5,
   Real.sin (synthSeed word * 2) * 0.4,
   Real.cos (synthSeed word * 2) * 0.4,
   (Real.sin (synthSeed word * 3) + Real.cos (synthSeed word * 3)) * 0.3]

/-- Model of `fetchWordEmbedding` (embeddings.ts lines 504-523): deterministic
pseudo-random vector for non-empty words, `null` for the empty word. -/
noncomputable def fetchWordEmbedding (word : String) : Option (List ℝ) :=
  if word.length > 0 then some (synthVector word) else none

/-- Model of `getWordEmbedding` (embeddings.ts lines 469-500), sequential semantics:
takes the current `embeddingsCache`, returns the resolved vector and the new
cache.  Cache hit → return cached vector; miss → fetch (synthesize) and cache
the result when both the cache and the embedding are non-null. -/
noncomputable def getWordEmbedding (cache : Option WordEmbeddings) (word : String) :
    Option (List ℝ) × Option WordEmbeddings :=
  let normalizedWord := normalizeWord word
  match cache with
  | some c =>
    match lookupTable c normalizedWord with
    | some v => (some v, some c)
    | none =>
      match fetchWordEmbedding normalizedWord with
      | some embedding => (some embedding, some (tableInsert c normalizedWord embedding))
      | none => (none, some c)
  | none =>
    match fetchWordEmbedding normalizedWord with
    | some embedding => (some embedding, none)
    | none => (none, none)

/-- The dot product computed by `computeSimilarity` (equal lengths are already
guaranteed at its use site). -/
def dotProduct (vec1 vec2 : List ℝ) : ℝ :=
  (List.zipWith (fun a b => a * b) vec1 vec2).sum

/-- Composition `Math.sqrt` of the sum of squares, as in `computeSimilarity`. -/
noncomputable def magnitude (vec : List ℝ) : ℝ :=
  Real.sqrt ((vec.map fun val => val * val).sum)

/-- Model of `computeSimilarity` (embeddings.ts lines 526-535; the identical copies in
workerUtils.ts and the worker source): 0 on length mismatch or zero
magnitude, otherwise cosine similarity. -/
noncomputable def computeSimilarity (vec1 vec2 : List ℝ) : ℝ :=
  if vec1.length ≠ vec2.length then 0
  else if magnitude vec1 = 0 ∨ magnitude vec2 = 0 then 0
  else dotProduct vec1 vec2 / (magnitude vec1 * magnitude vec2)

/-- Predicate `Number.isFinite` on a JS number: every real of this model is finite. -/
def jsIsFinite (_ : ℝ) : Bool := true

/-- Candidate pipeline shared by all three find-similar implementations before
the finiteness conjunct: drop the verbatim query key, score every remaining
entry, keep threshold-passing scores. -/
noncomputable def similarCandidates (embeddings : WordEmbeddings) (wordEmbedding : List ℝ)
    (word : String) (threshold : ℝ) : List (String × ℝ) :=
  ((embeddings.filter fun p => decide (p.1 ≠ word)).map
      fun p => (p.1, computeSimilarity wordEmbedding p.2)).filter
    fun item => decide (threshold ≤ item.2)

/-- Candidate pipeline of the worker and fallback implementations, whose
filter is `item.similarity >= threshold && Number.isFinite(item.similarity)`. -/
noncomputable def similarCandidatesW (embeddings : WordEmbeddings) (wordEmbedding : List ℝ)
    (word : String) (threshold : ℝ) : List (String × ℝ) :=
  ((embeddings.filter fun p => decide (p.1 ≠ word)).map
      fun p => (p.1, computeSimilarity wordEmbedding p.2)).filter
    fun item => decide (threshold ≤ item.2) && jsIsFinite item.2

/-- Insertion into a descending-sorted list, before the first element whose
score is ≤ the inserted score (so equal scores keep the earlier element
first). -/
noncomputable def insertSorted (x : String × ℝ) : List (String × ℝ) → List (String × ℝ)
  | [] => [x]
  | y :: l => if y.2 ≤ x.2 then x :: y :: l else y :: insertSorted x l

/-- The JS stable `Array.prototype.sort` with comparator
`(a, b) => b.similarity - a.similarity`.  A stable sort for a total preorder
is unique, and this insertion sort is stable and descending, so it is the
faithful model. -/
noncomputable def sortDesc : List (String × ℝ) → List (String × ℝ)
  | [] => []
  | x :: l => insertSorted x (sortDesc l)

/-- The similarity pipeline of the public `findSimilarWords`
(embeddings.ts lines 550-558): no finiteness conjunct in the filter. -/
noncomputable def findSimilarWordsMain (embeddings : WordEmbeddings) (wordEmbedding : List ℝ)
    (word : String) (limit : ℕ) (threshold : ℝ) : List (String × ℝ) :=
  (sortDesc (similarCandidates embeddings wordEmbedding word threshold)).take limit

/-- Model of `findSimilarWordsFallback` (workerUtils.ts lines 426-454). -/
noncomputable def findSimilarWordsFallback (embeddings : WordEmbeddings) (wordEmbedding : List ℝ)
    (word : String) (limit : ℕ) (threshold : ℝ) : List (String × ℝ) :=
  (sortDesc (similarCandidatesW embeddings wordEmbedding word threshold)).take limit

/-- Model of `findSimilarWords` of the worker source (embeddingsWorker.ts lines 67-83,
and the identical inline worker code of workerUtils.ts lines 107-117). -/
noncomputable def workerFindSimilarWords (embeddings : WordEmbeddings) (wordEmbedding : List ℝ)
    (word : String) (limit : ℕ) (threshold : ℝ) : List (String × ℝ) :=
  (sortDesc (similarCandidatesW embeddings wordEmbedding word threshold)).take limit

/-- The public `findSimilarWords(word, limit, threshold)`
(embeddings.ts lines 538-563): resolve the query embedding (normalized
lookup), read the possibly updated cache, and run the pipeline excluding the
verbatim query key. -/
noncomputable def findSimilarWordsTop (cache : Option WordEmbeddings) (word : String)
    (limit : ℕ) (threshold : ℝ) : List (String × ℝ) × Option WordEmbeddings :=
  let r := getWordEmbedding cache word
  match r.1, r.2 with
  | some wordEmbedding, some c =>
    (findSimilarWordsMain c wordEmbedding word limit threshold, some c)
  | _, _ => ([], r.2)

/-- A JS numeric expression that may have been contaminated by reading a
missing array component: `none` models NaN (from arithmetic on `undefined`). -/
abbrev JSNum := Option ℝ

/-- JS multiplication: `undefined`/NaN contaminates the result. -/
def jsMul : JSNum → JSNum → JSNum
  | some a, some b => some (a * b)
  | _, _ => none

/-- JS addition: `undefined`/NaN contaminates the result. -/
def jsAdd : JSNum → JSNum → JSNum
  | some a, some b => some (a + b)
  | _, _ => none

/-- The idiom `(vector[4] || 0)`: a missing component defaults to 0 (and the
falsy value 0 is replaced by the identical 0). -/
def jsOrZero : JSNum → JSNum
  | some a => some a
  | none => some 0

/-- Clamping `Math.max(-100, Math.min(100, v))`; NaN propagates through both. -/
def jsClamp : JSNum → JSNum
  | some a => some (max (-100) (min 100 a))
  | none => none

/-- Model of `projectTo2D` of the worker source (embeddingsWorker.ts lines 55-64 and
the inline worker code of workerUtils.ts lines 98-105):
`x = v[0]*100 + v[2]*30`, `y = v[1]*100 + v[3]*30 + (v[4] || 0)*20`. -/
def projectTo2D (vector : List ℝ) : JSNum × JSNum :=
  if vector.length < 2 then (some 0, some 0)
  else
    (jsAdd (jsMul vector[0]? (some 100)) (jsMul vector[2]? (some 30)),
     jsAdd (jsAdd (jsMul vector[1]? (some 100)) (jsMul vector[3]? (some 30)))
       (jsMul (jsOrZero vector[4]?) (some 20)))

/-- The inner `projectTo2D` of `projectEmbeddingsFallback`
(workerUtils.ts lines 463-478): `x = v[0]*100 + v[1]*50`,
`y = v[2]*30 + v[3]*40 + v[4]*60`, both clamped to [-100, 100]. -/
def projectTo2DFallback (vector : List ℝ) : JSNum × JSNum :=
  if vector.length < 2 then (some 0, some 0)
  else
    (jsClamp (jsAdd (jsMul vector[0]? (some 100)) (jsMul vector[1]? (some 50))),
     jsClamp (jsAdd (jsAdd (jsMul vector[2]? (some 30)) (jsMul vector[3]? (some 40)))
       (jsMul vector[4]? (some 60))))

/-- Model of `projectEmbeddingsFallback` (workerUtils.ts lines 457-486): apply the
fallback projector to every table entry. -/
def projectEmbeddingsFallback (embeddings : WordEmbeddings) :
    List (String × (JSNum × JSNum)) :=
  embeddings.map fun p => (p.1, projectTo2DFallback p.2)

/-- Model of `batchProjectTo2D` of the worker source: apply the worker projector to
every table entry. -/
def batchProjectTo2D (embeddings : WordEmbeddings) :
    List (String × (JSNum × JSNum)) :=
  embeddings.map fun p => (p.1, projectTo2D p.2)

/-- Payload of a FIND_SIMILAR_WORDS request (workerUtils.ts / the worker
message protocol). -/
structure SimilarPayload where
  embeddings : WordEmbeddings
  wordEmbedding : List ℝ
  word : String
  limit : ℕ
  threshold : ℝ

/-- A request dispatched through `sendWorkerMessage`, by message type. -/
inductive WorkerRequest where
  | findSimilarWordsReq (p : SimilarPayload)
  | batchProjectTo2DReq (embeddings : WordEmbeddings)
  | otherReq (type : String)

/-- The value a `sendWorkerMessage` promise resolves with. -/
inductive WorkerResponse where
  | similar (similarWords : List (String × ℝ))
  | points (pts : List (String × (JSNum × JSNum)))

/-- Settlement of the promise returned by `sendWorkerMessage`. -/
inductive Outcome where
  | resolve (r : WorkerResponse)
  | reject (msg : String)

/-- The per-message deadline handler of `sendWorkerMessage`
(workerUtils.ts lines 279-293): on expiry, the two known kinds resolve with
the synchronous fallback; any other kind rejects. -/
noncomputable def timeoutFallback : WorkerRequest → Outcome
  | .findSimilarWordsReq p =>
    .resolve (.similar (findSimilarWordsFallback p.embeddings p.wordEmbedding p.word
      p.limit p.threshold))
  | .batchProjectTo2DReq embeddings => .resolve (.points (projectEmbeddingsFallback embeddings))
  | .otherReq type => .reject ("Worker message timed out (" ++ type ++ ")")

/-- The catch-branch of `sendWorkerMessage` (workerUtils.ts lines 352-369),
reached on worker construction failure, non-browser environment, disabled
offloading, or transport errors: the two known kinds resolve with the
synchronous fallback; any other kind rejects with the caught error. -/
noncomputable def catchFallback (caught : String) : WorkerRequest → Outcome
  | .findSimilarWordsReq p =>
    .resolve (.similar (findSimilarWordsFallback p.embeddings p.wordEmbedding p.word
      p.limit p.threshold))
  | .batchProjectTo2DReq embeddings => .resolve (.points (projectEmbeddingsFallback embeddings))
  | .otherReq _ => .reject caught

/-- The worker-side handler of a FIND_SIMILAR_WORDS message (embeddingsWorker.ts
lines 104-116): it responds with `{ word, similarWords }` computed by the
worker-side Similarity Engine. -/
noncomputable def workerRespond (p : SimilarPayload) : WorkerResponse :=
  .similar (workerFindSimilarWords p.embeddings p.wordEmbedding p.word p.limit p.threshold)

/-! Helper lemmas about table lookup, insertion and merging. -/

lemma lookup_append_of_none {t u : WordEmbeddings} {k : String}
    (h : lookupTable t k = none) : lookupTable (t ++ u) k = lookupTable u k := by
  induction t with
  | nil => rfl
  | cons p rest ih =>
    obtain ⟨pk, pv⟩ := p
    simp only [lookupTable] at h ⊢
    by_cases hk : k = pk
    · simp [hk] at h
    · simpa [hk] using ih (by simpa [hk] using h)

lemma lookup_append_of_some {t u : WordEmbeddings} {k : String} {v : List ℝ}
    (h : lookupTable t k = some v) : lookupTable (t ++ u) k = some v := by
  induction t with
  | nil => simp [lookupTable] at h
  | cons p rest ih =>
    obtain ⟨pk, pv⟩ := p
    simp only [lookupTable] at h ⊢
    by_cases hk : k = pk
    · simpa [hk] using h
    · simpa [hk] using ih (by simpa [hk] using h)

lemma lookup_tableInsert_self (t : WordEmbeddings) (k : String) (v : List ℝ) :
    lookupTable (tableInsert t k v) k = some v := by
  induction t with
  | nil => simp [tableInsert, lookupTable]
  | cons p rest ih =>
    obtain ⟨pk, pv⟩ := p
    by_cases hpk : pk = k
    · simp [tableInsert, hpk, lookupTable]
    · simp [tableInsert, hpk, lookupTable, Ne.symm hpk, ih]

lemma lookup_tableInsert_ne (t : WordEmbeddings) (k : String) (v : List ℝ)
    {q : String} (h : q ≠ k) :
    lookupTable (tableInsert t k v) q = lookupTable t q := by
  induction t with
  | nil => simp [tableInsert, lookupTable, h]
  | cons p rest ih =>
    obtain ⟨pk, pv⟩ := p
    by_cases hpk : pk = k
    · subst hpk
      simp [tableInsert, lookupTable, h]
    · simp [tableInsert, hpk, lookupTable, ih]

lemma isSome_lookup_tableInsert (t : WordEmbeddings) (k : String) (v : List ℝ)
    (q : String) (h : (lookupTable t q).isSome) :
    (lookupTable (tableInsert t k v) q).isSome := by
  by_cases hq : q = k
  · subst hq; rw [lookup_tableInsert_self]; simp
  · rw [lookup_tableInsert_ne t k v hq]; exact h

lemma mergeTables_nil (s : WordEmbeddings) : mergeTables s [] = s := rfl

lemma mergeTables_cons (s : WordEmbeddings) (p : String × List ℝ) (a : WordEmbeddings) :
    mergeTables s (p :: a) = mergeTables (tableInsert s p.1 p.2) a := rfl

lemma lookup_mergeTables_of_last_none :
    ∀ (a s : WordEmbeddings) (k : String), lookupLast a k = none →
      lookupTable (mergeTables s a) k = lookupTable s k := by
  intro a
  induction a with
  | nil => intro s k _; rfl
  | cons p rest ih =>
    intro s k h
    obtain ⟨pk, pv⟩ := p
    have hrest : lookupLast rest k = none := by
      simp only [lookupLast] at h
      cases hr : lookupLast rest k with
      | none => rfl
      | some r => rw [hr] at h; simp at h
    have hk : k ≠ pk := by
      intro hkk
      simp only [lookupLast, hrest] at h
      rw [if_pos hkk] at h
      simp at h
    rw [mergeTables_cons, ih _ _ hrest, lookup_tableInsert_ne _ _ _ hk]

lemma lookup_mergeTables_of_last_some :
    ∀ (a s : WordEmbeddings) (k : String) (v : List ℝ), lookupLast a k = some v →
      lookupTable (mergeTables s a) k = some v := by
  intro a
  induction a with
  | nil => intro s k v h; simp [lookupLast] at h
  | cons p rest ih =>
    intro s k v h
    obtain ⟨pk, pv⟩ := p
    rw [mergeTables_cons]
    cases hr : lookupLast rest k with
    | some r =>
      have : r = v := by
        simp only [lookupLast, hr] at h
        exact Option.some_injective _ h
      subst this
      exact ih _ _ _ hr
    | none =>
      simp only [lookupLast, hr] at h
      by_cases hk : k = pk
      · rw [if_pos hk] at h
        have hv : pv = v := Option.some_injective _ h
        subst hv hk
        rw [lookup_mergeTables_of_last_none _ _ _ hr]
        exact lookup_tableInsert_self s k pv
      · rw [if_neg hk] at h
        simp at h

lemma isSome_lookup_mergeTables :
    ∀ (a s : WordEmbeddings) (k : String), (lookupTable s k).isSome →
      (lookupTable (mergeTables s a) k).isSome := by
  intro a
  induction a with
  | nil => intro s k h; exact h
  | cons p rest ih =>
    intro s k h
    rw [mergeTables_cons]
    exact ih _ _ (isSome_lookup_tableInsert _ _ _ _ h)

lemma getWordEmbedding_preserves (c : WordEmbeddings) (w k : String) (v : List ℝ)
    (h : lookupTable c k = some v) :
    ∀ c', (getWordEmbedding (some c) w).2 = some c' → lookupTable c' k = some v := by
  intro c' hc'
  unfold getWordEmbedding at hc'
  simp only at hc'
  cases hl : lookupTable c (normalizeWord w) with
  | some u =>
    rw [hl] at hc'
    simp at hc'
    rw [← hc']
    exact h
  | none =>
    rw [hl] at hc'
    cases hf : fetchWordEmbedding (normalizeWord w) with
    | some e =>
      rw [hf] at hc'
      simp at hc'
      subst hc'
      have hk : k ≠ normalizeWord w := by
        intro hkk
        rw [hkk, hl] at h
        exact Option.noConfusion h
      rw [lookup_tableInsert_ne _ _ _ hk]
      exact h
    | none =>
      rw [hf] at hc'
      simp at hc'
      rw [← hc']
      exact h

/-! Helper lemmas about the stable descending sort. -/

lemma insertSorted_perm (x : String × ℝ) :
    ∀ l : List (String × ℝ), List.Perm (insertSorted x l) (x :: l) := by
  intro l
  induction l with
  | nil => simp [insertSorted]
  | cons y l ih =>
    unfold insertSorted
    by_cases h : y.2 ≤ x.2
    · rw [if_pos h]
    · rw [if_neg h]
      exact List.Perm.trans (List.Perm.cons y ih) (List.Perm.swap x y l)

lemma sortDesc_perm : ∀ l : List (String × ℝ), List.Perm (sortDesc l) l := by
  intro l
  induction l with
  | nil => simp [sortDesc]
  | cons x l ih =>
    unfold sortDesc
    exact List.Perm.trans (insertSorted_perm x (sortDesc l)) (List.Perm.cons x ih)

lemma mem_insertSorted {x a : String × ℝ} {l : List (String × ℝ)}
    (h : a ∈ insertSorted x l) : a = x ∨ a ∈ l := by
  have := (insertSorted_perm x l).mem_iff.mp h
  simpa using this

lemma pairwise_insertSorted {x : String × ℝ} {l : List (String × ℝ)}
    (h : l.Pairwise (fun a b => b.2 ≤ a.2)) :
    (insertSorted x l).Pairwise (fun a b => b.2 ≤ a.2) := by
  induction l with
  | nil => simp [insertSorted]
  | cons y l ih =>
    rw [List.pairwise_cons] at h
    obtain ⟨hy, hl⟩ := h
    unfold insertSorted
    by_cases hle : y.2 ≤ x.2
    · rw [if_pos hle]
      refine List.Pairwise.cons ?_ (List.Pairwise.cons hy hl)
      intro b hb
      rcases List.mem_cons.mp hb with hb | hb
      · subst hb; exact hle
      · exact le_trans (hy b hb) hle
    · rw [if_neg hle]
      refine List.Pairwise.cons ?_ (ih hl)
      intro b hb
      rcases mem_insertSorted hb with hb | hb
      · subst hb; exact le_of_lt (lt_of_not_le hle)
      · exact hy b hb

lemma sortDesc_pairwise : ∀ l : List (String × ℝ),
    (sortDesc l).Pairwise (fun a b => b.2 ≤ a.2) := by
  intro l
  induction l with
  | nil => simp [sortDesc]
  | cons x l ih => exact pairwise_insertSorted ih

lemma filter_insertSorted (x : String × ℝ) (s : ℝ) :
    ∀ l : List (String × ℝ),
      (insertSorted x l).filter (fun p => decide (p.2 = s)) =
        if x.2 = s then x :: l.filter (fun p => decide (p.2 = s))
        else l.filter (fun p => decide (p.2 = s)) := by
  intro l
  induction l with
  | nil =>
    by_cases hx : x.2 = s <;> simp [insertSorted, hx, List.filter]
  | cons y l ih =>
    unfold insertSorted
    by_cases hle : y.2 ≤ x.2
    · rw [if_pos hle]
      by_cases hx : x.2 = s <;> simp [hx, List.filter_cons]
    · rw [if_neg hle]
      have hlt : x.2 < y.2 := lt_of_not_le hle
      by_cases hx : x.2 = s
      · have hy : ¬ y.2 = s := by
          intro hys
          rw [hx] at hlt
          rw [hys] at hlt
          exact lt_irrefl s hlt
        rw [if_pos hx]
        rw [List.filter_cons, List.filter_cons]
        rw [ih, if_pos hx]
        simp [hy]
      · rw [if_neg hx]
        rw [List.filter_cons, List.filter_cons]
        rw [ih, if_neg hx]

lemma filter_sortDesc (s : ℝ) : ∀ l : List (String × ℝ),
    (sortDesc l).filter (fun p => decide (p.2 = s)) =
      l.filter (fun p => decide (p.2 = s)) := by
  intro l
  induction l with
  | nil => simp [sortDesc]
  | cons x l ih =>
    unfold sortDesc
    rw [filter_insertSorted, List.filter_cons]
    by_cases hx : x.2 = s
    · rw [if_pos hx, ih]
      simp [hx]
    · rw [if_neg hx, ih]
      simp [hx]

lemma length_sortDesc (l : List (String × ℝ)) : (sortDesc l).length = l.length :=
  (sortDesc_perm l).length_eq

/-! Helper lemmas about cosine similarity. -/

lemma sumSq_nonneg (v : List ℝ) : 0 ≤ ((v.map fun val => val * val)).sum := by
  apply List.sum_nonneg
  intro x hx
  obtain ⟨y, _, rfl⟩ := List.mem_map.mp hx
  exact mul_self_nonneg y

lemma magnitude_nil : magnitude [] = 0 := by
  simp [magnitude]

lemma magnitude_ne_zero_of_sumSq {v : List ℝ}
    (h : ((v.map fun val => val * val)).sum ≠ 0) : magnitude v ≠ 0 := by
  unfold magnitude
  rw [Real.sqrt_ne_zero']
  exact lt_of_le_of_ne (sumSq_nonneg v) (Ne.symm h)

lemma dotProduct_self (v : List ℝ) :
    dotProduct v v = ((v.map fun val => val * val)).sum := by
  induction v with
  | nil => rfl
  | cons x v ih =>
    simp only [dotProduct, List.zipWith_cons_cons, List.sum_cons, List.map_cons] at *
    rw [ih]

lemma computeSimilarity_self {v : List ℝ}
    (h : ((v.map fun val => val * val)).sum ≠ 0) : computeSimilarity v v = 1 := by
  have hnn := sumSq_nonneg v
  have hmag : magnitude v ≠ 0 := magnitude_ne_zero_of_sumSq h
  unfold computeSimilarity
  rw [if_neg (by simp), if_neg (by simp [hmag])]
  rw [dotProduct_self]
  unfold magnitude
  rw [Real.mul_self_sqrt hnn]
  exact div_self h

/-- C2.  `computeSimilarity` is a total function (so it never throws): when
the vectors have equal length and both magnitudes are nonzero (which forces
both to be non-empty) it returns the dot product divided by the product of
the magnitudes, and in every degenerate case — either vector empty, lengths
differing, or either magnitude zero — it returns exactly 0. -/
theorem computeSimilarity_total_spec (vec1 vec2 : List ℝ) :
    (vec1.length = vec2.length → magnitude vec1 ≠ 0 → magnitude vec2 ≠ 0 →
      computeSimilarity vec1 vec2 =
        dotProduct vec1 vec2 / (magnitude vec1 * magnitude vec2))
    ∧ (vec1 = [] ∨ vec2 = [] ∨ vec1.length ≠ vec2.length ∨
        magnitude vec1 = 0 ∨ magnitude vec2 = 0 →
      computeSimilarity vec1 vec2 = 0) := by
  constructor
  · intro hlen h1 h2
    unfold computeSimilarity
    rw [if_neg (by simp [hlen]), if_neg (by simp [h1, h2])]
  · intro hdeg
    by_cases hlen : vec1.length = vec2.length
    · have hmag : magnitude vec1 = 0 ∨ magnitude vec2 = 0 := by
        rcases hdeg with h | h | h | h | h
        · left; rw [h]; exact magnitude_nil
        · right; rw [h]; exact magnitude_nil
        · exact absurd hlen h
        · exact Or.inl h
        · exact Or.inr h
      unfold computeSimilarity
      rw [if_neg (by simp [hlen]), if_pos hmag]
    · unfold computeSimilarity
      rw [if_pos hlen]

/-- Witness for C2: a concrete non-degenerate pair and a concrete degenerate
pair. -/
theorem computeSimilarity_total_spec_witness :
    computeSimilarity [(1 : ℝ)] [1] = dotProduct [1] [1] / (magnitude [1] * magnitude [1])
    ∧ computeSimilarity ([] : List ℝ) [1, 2] = 0 := by
  have hm : magnitude [(1 : ℝ)] ≠ 0 := by
    unfold magnitude
    norm_num
  exact ⟨(computeSimilarity_total_spec [1] [1]).1 rfl hm hm,
    (computeSimilarity_total_spec [] [1, 2]).2 (Or.inl rfl)⟩

lemma computeSimilarity_of_ne_zero {vec1 vec2 : List ℝ}
    (hlen : vec1.length = vec2.length) (h1 : magnitude vec1 ≠ 0)
    (h2 : magnitude vec2 ≠ 0) :
    computeSimilarity vec1 vec2 =
      dotProduct vec1 vec2 / (magnitude vec1 * magnitude vec2) := by
  unfold computeSimilarity
  rw [if_neg (by simp [hlen]), if_neg (by simp [h1, h2])]

lemma similarCandidatesW_eq (e : WordEmbeddings) (q : List ℝ) (w : String) (t : ℝ) :
    similarCandidatesW e q w t = similarCandidates e q w t := by
  unfold similarCandidatesW similarCandidates jsIsFinite
  simp [Bool.and_true]

lemma isPrefix_filter {l1 l2 : List (String × ℝ)} (h : List.IsPrefix l1 l2)
    (f : String × ℝ → Bool) : List.IsPrefix (l1.filter f) (l2.filter f) := by
  obtain ⟨tail, rfl⟩ := h
  rw [List.filter_append]
  exact ⟨(tail.filter f), rfl⟩

/-- C1.  For every embedding table, query vector, excluded word, threshold
and limit, the find-similar pipeline (the public one of embeddings.ts, the
worker's and the synchronous fallback all agree) returns a sequence sorted by
descending similarity, in which exact ties preserve the table's iteration
order (the entries with any fixed score form a prefix of the corresponding
threshold-passing candidates in table order), containing at most `limit`
entries (`limit = 0` yields the empty sequence, and the length is exactly
`min limit (number of passing candidates)`), and the returned entries
together with the dropped ones permute the passing candidates while every
returned score is ≥ every dropped score — i.e. the result is the `limit`
highest-scoring candidates. -/
theorem findSimilarWords_ranking_spec (e : WordEmbeddings) (q : List ℝ) (w : String)
    (t : ℝ) (n : ℕ) :
    findSimilarWordsFallback e q w n t = findSimilarWordsMain e q w n t
    ∧ workerFindSimilarWords e q w n t = findSimilarWordsMain e q w n t
    ∧ (findSimilarWordsMain e q w n t).Pairwise (fun a b => b.2 ≤ a.2)
    ∧ (∀ s : ℝ, List.IsPrefix
        ((findSimilarWordsMain e q w n t).filter (fun p => decide (p.2 = s)))
        ((similarCandidates e q w t).filter (fun p => decide (p.2 = s))))
    ∧ (findSimilarWordsMain e q w n t).length = min n (similarCandidates e q w t).length
    ∧ (n = 0 → findSimilarWordsMain e q w n t = [])
    ∧ List.Perm
        (findSimilarWordsMain e q w n t ++ (sortDesc (similarCandidates e q w t)).drop n)
        (similarCandidates e q w t)
    ∧ (∀ a ∈ findSimilarWordsMain e q w n t,
        ∀ b ∈ (sortDesc (similarCandidates e q w t)).drop n, b.2 ≤ a.2) := by
  have hsorted := sortDesc_pairwise (similarCandidates e q w t)
  have hsplit := List.take_append_drop n (sortDesc (similarCandidates e q w t))
  refine ⟨?_, ?_, ?_, ?_, ?_, ?_, ?_, ?_⟩
  · unfold findSimilarWordsFallback findSimilarWordsMain
    rw [similarCandidatesW_eq]
  · unfold workerFindSimilarWords findSimilarWordsMain
    rw [similarCandidatesW_eq]
  · exact List.Pairwise.sublist (List.take_sublist n _) hsorted
  · intro s
    have h1 : List.IsPrefix (findSimilarWordsMain e q w n t)
        (sortDesc (similarCandidates e q w t)) := List.take_prefix n _
    have h2 := isPrefix_filter h1 (fun p => decide (p.2 = s))
    rwa [filter_sortDesc] at h2
  · unfold findSimilarWordsMain
    rw [List.length_take, length_sortDesc]
  · intro hn
    unfold findSimilarWordsMain
    rw [hn, List.take_zero]
  · unfold findSimilarWordsMain
    rw [hsplit]
    exact sortDesc_perm _
  · intro a ha b hb
    rw [← hsplit] at hsorted
    exact (List.pairwise_append.mp hsorted).2.2 a ha b hb

/-- C3.  Every entry returned by any of the three find-similar
implementations has a score ≥ the threshold (its score is a real number of
the model, hence finite; candidates failing the threshold test are filtered
out before sorting and truncation). -/
theorem findSimilarWords_threshold_spec (e : WordEmbeddings) (q : List ℝ) (w : String)
    (t : ℝ) (n : ℕ) (p : String × ℝ) :
    (p ∈ findSimilarWordsMain e q w n t → t ≤ p.2)
    ∧ (p ∈ findSimilarWordsFallback e q w n t → t ≤ p.2)
    ∧ (p ∈ workerFindSimilarWords e q w n t → t ≤ p.2) := by
  have key : p ∈ findSimilarWordsMain e q w n t → t ≤ p.2 := by
    intro hp
    have h1 : p ∈ sortDesc (similarCandidates e q w t) :=
      List.mem_of_mem_take hp
    have h2 : p ∈ similarCandidates e q w t := (sortDesc_perm _).mem_iff.mp h1
    unfold similarCandidates at h2
    have := List.of_mem_filter h2
    simpa using this
  refine ⟨key, ?_, ?_⟩
  · intro hp
    apply key
    unfold findSimilarWordsFallback at hp
    unfold findSimilarWordsMain
    rwa [similarCandidatesW_eq] at hp
  · intro hp
    apply key
    unfold workerFindSimilarWords at hp
    unfold findSimilarWordsMain
    rwa [similarCandidatesW_eq] at hp

/-! Concrete evaluations used by witnesses. -/

lemma magnitude_one : magnitude [(1 : ℝ)] = 1 := by
  unfold magnitude
  norm_num

lemma magnitude_negOne : magnitude [(-1 : ℝ)] = 1 := by
  unfold magnitude
  norm_num

lemma sim_one_one : computeSimilarity [(1 : ℝ)] [1] = 1 :=
  computeSimilarity_self (by norm_num)

lemma sim_one_negOne : computeSimilarity [(1 : ℝ)] [-1] = -1 := by
  rw [@computeSimilarity_of_ne_zero [(1 : ℝ)] [-1] rfl
      (by rw [magnitude_one]; norm_num) (by rw [magnitude_negOne]; norm_num)]
  rw [magnitude_one, magnitude_negOne]
  norm_num [dotProduct]

lemma candidates_eval :
    similarCandidates [("a", [(1 : ℝ)]), ("b", [-1])] [1] "q" (-2) =
      [("a", 1), ("b", -1)] := by
  unfold similarCandidates
  rw [List.filter_cons, List.filter_cons, List.filter_nil,
    if_pos (by decide), if_pos (by decide), List.map_cons, List.map_cons, List.map_nil]
  simp only [sim_one_one, sim_one_negOne]
  rw [List.filter_cons, List.filter_cons, List.filter_nil,
    if_pos (by norm_num), if_pos (by norm_num)]

lemma sortDesc_eval :
    sortDesc [("a", (1 : ℝ)), ("b", -1)] = [("a", 1), ("b", -1)] := by
  unfold sortDesc sortDesc sortDesc insertSorted insertSorted
  norm_num

lemma main_eval :
    findSimilarWordsMain [("a", [(1 : ℝ)]), ("b", [-1])] [1] "q" 1 (-2) = [("a", 1)] := by
  unfold findSimilarWordsMain
  rw [candidates_eval, sortDesc_eval]
  rfl

lemma drop_eval :
    (sortDesc (similarCandidates [("a", [(1 : ℝ)]), ("b", [-1])] [1] "q" (-2))).drop 1 =
      [("b", -1)] := by
  rw [candidates_eval, sortDesc_eval]
  rfl

/-- Witness for C1: at a concrete two-entry table with limit 1, the limit=0
conjunct and the returned-scores-dominate-dropped-scores conjunct are applied
with all hypotheses discharged. -/
theorem findSimilarWords_ranking_spec_witness :
    findSimilarWordsMain [] [] "q" 0 0 = [] ∧ ((-1 : ℝ) ≤ 1) := by
  constructor
  · exact (findSimilarWords_ranking_spec [] [] "q" 0 0).2.2.2.2.2.1 rfl
  · have h := (findSimilarWords_ranking_spec [("a", [(1 : ℝ)]), ("b", [-1])] [1] "q" (-2)
      1).2.2.2.2.2.2.2
    have ha : ("a", (1 : ℝ)) ∈ findSimilarWordsMain [("a", [(1 : ℝ)]), ("b", [-1])] [1] "q" 1 (-2) := by
      rw [main_eval]
      exact List.mem_singleton.mpr rfl
    have hb : ("b", (-1 : ℝ)) ∈
        (sortDesc (similarCandidates [("a", [(1 : ℝ)]), ("b", [-1])] [1] "q" (-2))).drop 1 := by
      rw [drop_eval]
      exact List.mem_singleton.mpr rfl
    exact h ("a", 1) ha ("b", -1) hb

/-- Witness for C3: a concrete returned entry of each implementation whose
score dominates the threshold. -/
theorem findSimilarWords_threshold_spec_witness :
    (("a", (1 : ℝ)) ∈ findSimilarWordsMain [("a", [(1 : ℝ)]), ("b", [-1])] [1] "q" 1 (-2))
    ∧ ((-2 : ℝ) ≤ 1) := by
  have ha : ("a", (1 : ℝ)) ∈ findSimilarWordsMain [("a", [(1 : ℝ)]), ("b", [-1])] [1] "q" 1 (-2) := by
    rw [main_eval]
    exact List.mem_singleton.mpr rfl
  exact ⟨ha, (findSimilarWords_threshold_spec [("a", [(1 : ℝ)]), ("b", [-1])] [1] "q" (-2) 1
    ("a", 1)).1 ha⟩

/-- Counterexample for C4: the length-2 vector [1, 1] is not a declared
degenerate case (length ≥ 2), yet the worker projector reads the missing
components 2 and 3 and produces NaN for both coordinates, and the fallback
projector produces NaN for its y coordinate — ill-defined coordinates,
contradicting the claim. -/
theorem projectTo2D_illDefined_cex :
    2 ≤ ([(1 : ℝ), 1]).length
    ∧ (projectTo2D [(1 : ℝ), 1]).1 = none
    ∧ (projectTo2D [(1 : ℝ), 1]).2 = none
    ∧ (projectTo2DFallback [(1 : ℝ), 1]).2 = none := by
  refine ⟨by norm_num, ?_, ?_, ?_⟩ <;> rfl

/-- C4 as amended.  Both projectors return exactly (0, 0) for vectors of
length < 2, and return well-defined coordinates whenever every component they
read is present: the worker projector for length ≥ 4 (its component 4 is
guarded by `|| 0`), the fallback projector for length ≥ 5, and the fallback's
x coordinate already for length ≥ 2.  For the remaining in-between lengths a
coordinate that reads a missing component is NaN (ill-defined) rather than a
crash. -/
theorem projectTo2D_graceful_amended (v : List ℝ) :
    (v.length < 2 → projectTo2D v = (some 0, some 0)
      ∧ projectTo2DFallback v = (some 0, some 0))
    ∧ (4 ≤ v.length → (projectTo2D v).1.isSome ∧ (projectTo2D v).2.isSome)
    ∧ (5 ≤ v.length → (projectTo2DFallback v).1.isSome ∧ (projectTo2DFallback v).2.isSome)
    ∧ (2 ≤ v.length → (projectTo2DFallback v).1.isSome) := by
  refine ⟨?_, ?_, ?_, ?_⟩
  · intro h
    unfold projectTo2D projectTo2DFallback
    rw [if_pos h, if_pos h]
    exact ⟨rfl, rfl⟩
  · intro h
    have h0 : v[0]? = some v[0] := List.getElem?_eq_getElem (by omega)
    have h1 : v[1]? = some v[1] := List.getElem?_eq_getElem (by omega)
    have h2 : v[2]? = some v[2] := List.getElem?_eq_getElem (by omega)
    have h3 : v[3]? = some v[3] := List.getElem?_eq_getElem (by omega)
    unfold projectTo2D
    rw [if_neg (by omega), h0, h1, h2, h3]
    cases hv4 : v[4]? <;> simp [jsMul, jsAdd, jsOrZero]
  · intro h
    have h0 : v[0]? = some v[0] := List.getElem?_eq_getElem (by omega)
    have h1 : v[1]? = some v[1] := List.getElem?_eq_getElem (by omega)
    have h2 : v[2]? = some v[2] := List.getElem?_eq_getElem (by omega)
    have h3 : v[3]? = some v[3] := List.getElem?_eq_getElem (by omega)
    have h4 : v[4]? = some v[4] := List.getElem?_eq_getElem (by omega)
    unfold projectTo2DFallback
    rw [if_neg (by omega), h0, h1, h2, h3, h4]
    simp [jsMul, jsAdd, jsClamp]
  · intro h
    have h0 : v[0]? = some v[0] := List.getElem?_eq_getElem (by omega)
    have h1 : v[1]? = some v[1] := List.getElem?_eq_getElem (by omega)
    unfold projectTo2DFallback
    rw [if_neg (by omega), h0, h1]
    simp [jsMul, jsAdd, jsClamp]

/-- Witness for C4 (amended): the spec's degenerate example `project([5])`
and a full-length vector on the fallback path. -/
theorem projectTo2D_graceful_amended_witness :
    projectTo2D [(5 : ℝ)] = (some 0, some 0)
    ∧ (projectTo2DFallback [(1 : ℝ), 2, 3, 4, 5]).2.isSome :=
  ⟨((projectTo2D_graceful_amended [(5 : ℝ)]).1 (by norm_num)).1,
   ((projectTo2D_graceful_amended [(1 : ℝ), 2, 3, 4, 5]).2.2.1 (by norm_num)).2⟩

set_option maxHeartbeats 1000000 in
lemma lookupLast_additional_wellness :
    lookupLast fetchAdditionalEmbeddings "wellness" =
      some [0.35, 0.45, 0.25, 0.55, 0.65] := by
  simp [fetchAdditionalEmbeddings, lookupLast]

set_option maxHeartbeats 1000000 in
/-- Counterexample for C5: right after `initializeEmbeddings` seeds the cache
(line 345) the table maps "wellness" to the static vector, but the
supplemental merge of the very same call re-maps "wellness" to the different
supplemental vector — a subsequent operation changes the vector a word maps
to. -/
theorem mergeOverwrites_wellness_cex :
    lookupTable seededCache "wellness" = some [0.5, 0.5, 0.4, 0.6, 0.6]
    ∧ initializeEmbeddings none =
        some (mergeTables getStaticWordEmbeddings fetchAdditionalEmbeddings)
    ∧ lookupTable (mergeTables getStaticWordEmbeddings fetchAdditionalEmbeddings)
        "wellness" = some [0.35, 0.45, 0.25, 0.55, 0.65]
    ∧ ([0.5, 0.5, 0.4, 0.6, 0.6] : List ℝ) ≠ [0.35, 0.45, 0.25, 0.55, 0.65] := by
  refine ⟨?_, rfl, ?_, ?_⟩
  · simp [seededCache, getStaticWordEmbeddings, lookupTable]
  · exact lookup_mergeTables_of_last_some _ _ _ _ lookupLast_additional_wellness
  · simp only [ne_eq, List.cons.injEq, not_and]
    intro h
    norm_num at h

/-- C5 as amended.  The effective table never removes entries: the
supplemental merge keeps every existing key, and leaves the vector of every
word the supplemental table does not itself define unchanged; synthesis
caching during `getWordEmbedding` never changes or removes an existing
entry.  (What fails in the original claim is only that the merge overwrites
the vectors of the colliding keys "wellness" and "professor".) -/
theorem embeddingTable_append_only_amended (s a c : WordEmbeddings) (k w : String)
    (v : List ℝ) :
    ((lookupTable s k).isSome → (lookupTable (mergeTables s a) k).isSome)
    ∧ (lookupLast a k = none → lookupTable (mergeTables s a) k = lookupTable s k)
    ∧ (lookupTable c k = some v →
        ∀ c', (getWordEmbedding (some c) w).2 = some c' → lookupTable c' k = some v) :=
  ⟨isSome_lookup_mergeTables a s k,
   lookup_mergeTables_of_last_none a s k,
   fun h => getWordEmbedding_preserves c w k v h⟩

/-- Witness for C5 (amended): concrete tables; the key "x" survives a merge
and a synthesis-caching step untouched. -/
theorem embeddingTable_append_only_amended_witness :
    (lookupTable (mergeTables [("x", [(1 : ℝ)])] [("y", [2])]) "x").isSome
    ∧ lookupTable (tableInsert [("x", [(1 : ℝ)])] "y" (synthVector "y")) "x" = some [1] := by
  constructor
  · exact (embeddingTable_append_only_amended [("x", [(1 : ℝ)])] [("y", [2])]
      [] "x" "y" []).1 (by simp [lookupTable])
  · exact (embeddingTable_append_only_amended [] [] [("x", [(1 : ℝ)])] "x" "y" [1]).2.2
      (by simp [lookupTable]) _ rfl

lemma string_length_pos {s : String} (h : s ≠ "") : 0 < s.length := by
  cases s with
  | mk data =>
    cases data with
    | nil => exact absurd rfl h
    | cons c cs => simp [String.length]

lemma getWordEmbedding_hit {c : WordEmbeddings} {w : String} {v : List ℝ}
    (h : lookupTable c (normalizeWord w) = some v) :
    getWordEmbedding (some c) w = (some v, some c) := by
  unfold getWordEmbedding
  simp [h]

/-- C6.  Word-vector synthesis is a pure function of the word string: when the
normalized (lowercased, trimmed) form of a word is empty and not a table key,
`getWordEmbedding` resolves to `none`; when the normalized form is non-empty
and absent from the table it resolves to exactly the 5-component sinusoidal
vector `synthVector` of the normalized word — independent of the cache
contents, which gives fresh-process reproducibility; and an immediately
repeated call returns the same result. -/
theorem getWordEmbedding_synthesis_spec (w : String) (c : WordEmbeddings) :
    (normalizeWord w = "" → lookupTable c "" = none →
      (getWordEmbedding (some c) w).1 = none)
    ∧ (normalizeWord w ≠ "" → lookupTable c (normalizeWord w) = none →
      (getWordEmbedding (some c) w).1 = some (synthVector (normalizeWord w)))
    ∧ (∀ cache : Option WordEmbeddings,
      (getWordEmbedding ((getWordEmbedding cache w).2) w).1 =
        (getWordEmbedding cache w).1) := by
  refine ⟨?_, ?_, ?_⟩
  · intro hn hl
    unfold getWordEmbedding
    rw [hn]
    simp only [hl]
    simp [fetchWordEmbedding]
  · intro hn hl
    unfold getWordEmbedding
    simp only [hl]
    have hfetch : fetchWordEmbedding (normalizeWord w) = some (synthVector (normalizeWord w)) := by
      unfold fetchWordEmbedding
      rw [if_pos (string_length_pos hn)]
    simp [hfetch]
  · intro cache
    cases cache with
    | none =>
      unfold getWordEmbedding
      cases hf : fetchWordEmbedding (normalizeWord w) <;> simp [hf]
    | some c0 =>
      cases hl : lookupTable c0 (normalizeWord w) with
      | some v =>
        rw [getWordEmbedding_hit hl, getWordEmbedding_hit hl]
      | none =>
        cases hf : fetchWordEmbedding (normalizeWord w) with
        | some e =>
          have h1 : getWordEmbedding (some c0) w =
              (some e, some (tableInsert c0 (normalizeWord w) e)) := by
            unfold getWordEmbedding
            simp [hl, hf]
          rw [h1]
          rw [getWordEmbedding_hit (lookup_tableInsert_self c0 (normalizeWord w) e)]
        | none =>
          have h1 : getWordEmbedding (some c0) w = (none, some c0) := by
            unfold getWordEmbedding
            simp [hl, hf]
          rw [h1, h1]

/-- Witness for C6: a whitespace-only word resolves to `none`; the unknown
word "xyzzyword" of the spec resolves to its synthesized vector. -/
theorem getWordEmbedding_synthesis_spec_witness :
    (getWordEmbedding (some [("dog", [(1 : ℝ)])]) " ").1 = none
    ∧ (getWordEmbedding (some [("dog", [(1 : ℝ)])]) "xyzzyword").1 =
        some (synthVector "xyzzyword") := by
  constructor
  · exact (getWordEmbedding_synthesis_spec " " [("dog", [(1 : ℝ)])]).1 rfl rfl
  · have h := (getWordEmbedding_synthesis_spec "xyzzyword" [("dog", [(1 : ℝ)])]).2.1
      (by decide) rfl
    rwa [show normalizeWord "xyzzyword" = "xyzzyword" from by decide] at h

/-- C7.  When the worker is unavailable (construction failure, non-browser
environment, or offloading disabled — all reaching the catch-branch of
`sendWorkerMessage`), a FIND_SIMILAR_WORDS dispatch resolves with exactly the
result the worker-side Similarity Engine would compute for the same payload:
the fallback and worker implementations are one and the same function. -/
theorem dispatcher_fallback_equivalence (e : WordEmbeddings) (q : List ℝ) (w : String)
    (n : ℕ) (t : ℝ) (msg : String) :
    catchFallback msg (.findSimilarWordsReq ⟨e, q, w, n, t⟩) =
      .resolve (workerRespond ⟨e, q, w, n, t⟩)
    ∧ findSimilarWordsFallback e q w n t = workerFindSimilarWords e q w n t :=
  ⟨rfl, rfl⟩

/-- C8.  For the two operation kinds FIND_SIMILAR_WORDS and
BATCH_PROJECT_TO_2D, both the per-message deadline handler and the
catch-branch of `sendWorkerMessage` settle the promise by resolving it with
the synchronously computed fallback result — never by rejecting — so the
caller always receives an answer for these two kinds. -/
theorem timeout_resolves_with_fallback (p : SimilarPayload) (e : WordEmbeddings)
    (msg : String) :
    timeoutFallback (.findSimilarWordsReq p) =
      .resolve (.similar (findSimilarWordsFallback p.embeddings p.wordEmbedding p.word
        p.limit p.threshold))
    ∧ timeoutFallback (.batchProjectTo2DReq e) =
      .resolve (.points (projectEmbeddingsFallback e))
    ∧ catchFallback msg (.findSimilarWordsReq p) =
      .resolve (.similar (findSimilarWordsFallback p.embeddings p.wordEmbedding p.word
        p.limit p.threshold))
    ∧ catchFallback msg (.batchProjectTo2DReq e) =
      .resolve (.points (projectEmbeddingsFallback e)) :=
  ⟨rfl, rfl, rfl, rfl⟩

lemma getWordEmbedding_snd (c : WordEmbeddings) (w : String) :
    ∃ ct, (getWordEmbedding (some c) w).2 = some ct := by
  unfold getWordEmbedding
  cases hl : lookupTable c (normalizeWord w) with
  | some v => exact ⟨c, by simp [hl]⟩
  | none =>
    cases hf : fetchWordEmbedding (normalizeWord w) with
    | some e => exact ⟨tableInsert c (normalizeWord w) e, by simp [hl, hf]⟩
    | none => exact ⟨c, by simp [hl, hf]⟩

lemma foldl_preserves_the (v : List ℝ) :
    ∀ (ws : List String) (cache : Option WordEmbeddings),
      (∃ ct, cache = some ct ∧ lookupTable ct "the" = some v) →
      ∃ ct, ws.foldl (fun cache w => (getWordEmbedding cache w).2) cache = some ct
        ∧ lookupTable ct "the" = some v := by
  intro ws
  induction ws with
  | nil => intro cache h; simpa using h
  | cons w ws ih =>
    intro cache h
    obtain ⟨ct, hc, hl⟩ := h
    subst hc
    obtain ⟨ct', hct'⟩ := getWordEmbedding_snd ct w
    have hl' : lookupTable ct' "the" = some v :=
      getWordEmbedding_preserves ct w "the" v hl ct' hct'
    have := ih ((getWordEmbedding (some ct) w).2) ⟨ct', hct', hl'⟩
    simpa using this

set_option maxHeartbeats 1000000 in
lemma lookupLast_additional_the : lookupLast fetchAdditionalEmbeddings "the" = none := by
  simp [fetchAdditionalEmbeddings, lookupLast]

set_option maxHeartbeats 1000000 in
/-- C9.  The static table maps "the" to the all-zero curated vector, and
after initialization followed by any sequence of `getWordEmbedding` calls
(in particular ones that synthesized vectors for unknown words), resolving
"the" returns exactly that curated static vector, from the cache: no
synthesis takes place (the cache is left untouched by the call). -/
theorem resolve_the_static_vector (ws : List String) :
    lookupTable getStaticWordEmbeddings "the" = some [0.0, 0.0, 0.0, 0.0, 0.0]
    ∧ (getWordEmbedding (ws.foldl (fun cache w => (getWordEmbedding cache w).2)
        (initializeEmbeddings none)) "the").1 = some [0.0, 0.0, 0.0, 0.0, 0.0]
    ∧ (getWordEmbedding (ws.foldl (fun cache w => (getWordEmbedding cache w).2)
        (initializeEmbeddings none)) "the").2 =
      ws.foldl (fun cache w => (getWordEmbedding cache w).2) (initializeEmbeddings none) := by
  have hstat : lookupTable getStaticWordEmbeddings "the" = some [0.0, 0.0, 0.0, 0.0, 0.0] := rfl
  have hinit : ∃ ct, initializeEmbeddings none = some ct
      ∧ lookupTable ct "the" = some [0.0, 0.0, 0.0, 0.0, 0.0] := by
    refine ⟨mergeTables getStaticWordEmbeddings fetchAdditionalEmbeddings, rfl, ?_⟩
    rw [lookup_mergeTables_of_last_none _ _ _ lookupLast_additional_the]
    exact hstat
  obtain ⟨ct, hc, hl⟩ := foldl_preserves_the _ ws _ hinit
  have hhit : lookupTable ct (normalizeWord "the") = some [0.0, 0.0, 0.0, 0.0, 0.0] := hl
  rw [hc, getWordEmbedding_hit hhit]
  exact ⟨hstat, rfl, rfl⟩

lemma mem_findSimilarWordsMain_ne {e : WordEmbeddings} {q : List ℝ} {w : String}
    {n : ℕ} {t : ℝ} {p : String × ℝ} (hp : p ∈ findSimilarWordsMain e q w n t) :
    p.1 ≠ w := by
  have h1 : p ∈ sortDesc (similarCandidates e q w t) := List.mem_of_mem_take hp
  have h2 : p ∈ similarCandidates e q w t := (sortDesc_perm _).mem_iff.mp h1
  unfold similarCandidates at h2
  have h3 := List.mem_of_mem_filter h2
  obtain ⟨pair, hpair, rfl⟩ := List.mem_map.mp h3
  have h4 := List.of_mem_filter hpair
  simpa using h4

lemma dog_self_sim :
    computeSimilarity [0.7, 0.3, 0.2, 0.5, 0.4] [0.7, 0.3, 0.2, 0.5, 0.4] = 1 :=
  computeSimilarity_self (by norm_num)

lemma main_dog_eval :
    findSimilarWordsMain [("dog", [0.7, 0.3, 0.2, 0.5, 0.4])] [0.7, 0.3, 0.2, 0.5, 0.4]
      "Dog" 10 (1 / 2) = [("dog", 1)] := by
  unfold findSimilarWordsMain similarCandidates
  rw [List.filter_cons, List.filter_nil, if_pos (by decide), List.map_cons, List.map_nil]
  simp only [dog_self_sim]
  rw [List.filter_cons, List.filter_nil, if_pos (by norm_num)]
  rfl

/-- C10.  The public `findSimilarWords` excludes from its results exactly the
table entry whose key equals the query word verbatim (every returned key
differs from the query), while the query's own embedding is looked up under
its normalized form; consequently, for the query "Dog" over a table with
entry "dog", the entry "dog" itself appears in the results with similarity
exactly 1. -/
theorem findSimilarWords_exclusion_normalization :
    (∀ (cache : Option WordEmbeddings) (w : String) (n : ℕ) (t : ℝ) (p : String × ℝ),
      p ∈ (findSimilarWordsTop cache w n t).1 → p.1 ≠ w)
    ∧ (∀ (c : WordEmbeddings) (w : String) (n : ℕ) (t : ℝ) (e : List ℝ),
      lookupTable c (normalizeWord w) = some e →
      findSimilarWordsTop (some c) w n t = (findSimilarWordsMain c e w n t, some c))
    ∧ findSimilarWordsTop (some [("dog", [0.7, 0.3, 0.2, 0.5, 0.4])]) "Dog" 10 (1 / 2) =
      ([("dog", 1)], some [("dog", [0.7, 0.3, 0.2, 0.5, 0.4])]) := by
  have hkey : ∀ (c : WordEmbeddings) (w : String) (n : ℕ) (t : ℝ) (e : List ℝ),
      lookupTable c (normalizeWord w) = some e →
      findSimilarWordsTop (some c) w n t = (findSimilarWordsMain c e w n t, some c) := by
    intro c w n t e h
    simp only [findSimilarWordsTop, getWordEmbedding_hit h]
  refine ⟨?_, hkey, ?_⟩
  · intro cache w n t p hp
    unfold findSimilarWordsTop at hp
    rcases hge : getWordEmbedding cache w with ⟨r1, r2⟩
    rw [hge] at hp
    cases r1 with
    | none =>
      change p ∈ ([] : List (String × ℝ)) at hp
      exact absurd hp (List.not_mem_nil p)
    | some emb =>
      cases r2 with
      | none =>
        change p ∈ ([] : List (String × ℝ)) at hp
        exact absurd hp (List.not_mem_nil p)
      | some c =>
        change p ∈ findSimilarWordsMain c emb w n t at hp
        exact mem_findSimilarWordsMain_ne hp
  · have hlook : lookupTable [("dog", [0.7, 0.3, 0.2, 0.5, 0.4])] (normalizeWord "Dog") =
        some [0.7, 0.3, 0.2, 0.5, 0.4] := rfl
    rw [hkey _ _ _ _ _ hlook, main_dog_eval]

/-- Witness for C10: the "Dog"/"dog" scenario, with the membership hypothesis
discharged concretely. -/
theorem findSimilarWords_exclusion_normalization_witness :
    (("dog" : String) ≠ "Dog")
    ∧ (findSimilarWordsTop (some [("dog", [0.7, 0.3, 0.2, 0.5, 0.4])]) "Dog" 10 (1 / 2)).1 =
      [("dog", 1)] := by
  have h3 := findSimilarWords_exclusion_normalization.2.2
  refine ⟨?_, by rw [h3]⟩
  refine findSimilarWords_exclusion_normalization.1
    (some [("dog", [0.7, 0.3, 0.2, 0.5, 0.4])]) "Dog" 10 (1 / 2) ("dog", 1) ?_
  rw [h3]
  exact List.mem_singleton.mpr rfl
